import Mathlib

/-!
Verification of the S1000D QA application's document indexing and retrieval
engine.  The Python sources under `backend/` are shallowly embedded below:
pure functions become Lean functions over `String`, `Nat`, `Int` and `ℚ`
(Python `float` scores are modelled by rationals, which preserves every
comparison and additive boost appearing in the code), Python dicts become
association lists with first-match lookup, and calls into external
collaborators (the PDF reader, the embedding model, the ChromaDB / FAISS
backends, the LangChain text splitters and the OCR service) become explicit
parameters or modelled interface functions, documented at their definition.
-/

namespace S1000D

/-! ### Python string primitives

The helpers below embed the exact Python string operations used by the
sources: `str.lower`, `str.strip`, `str.isupper`, `str.split`,
substring membership (`in`), and the two `re` patterns of
`pdf_processor.py` together with the numbered-item pattern of `app.py`.
All texts handled by the application are ASCII, for which `Char.toLower`
etc. agree with Python semantics. -/

/-- Python whitespace class `\s` (ASCII range): space, tab, LF, CR, VT, FF. -/
def pyIsSpace (c : Char) : Bool :=
  c = ' ' || c = '\t' || c = '\n' || c = '\r' || c = Char.ofNat 11 || c = Char.ofNat 12

/-- ASCII decimal digit, Python `\d` / `str.isdigit` on ASCII input. -/
def pyIsDigit (c : Char) : Bool :=
  '0' ≤ c && c ≤ '9'

/-- ASCII uppercase letter, the character class `[A-Z]`. -/
def pyIsUpperAZ (c : Char) : Bool :=
  'A' ≤ c && c ≤ 'Z'

/-- `str.strip()` on the underlying character list. -/
def pyStripL (l : List Char) : List Char :=
  ((l.dropWhile pyIsSpace).reverse.dropWhile pyIsSpace).reverse

/-- `str.strip()`. -/
def pyStrip (s : String) : String :=
  ⟨pyStripL s.data⟩

/-- `str.lower()` (ASCII). -/
def pyLower (s : String) : String :=
  ⟨s.data.map Char.toLower⟩

/-- `str.isupper()`: at least one cased character and no lowercase one
(ASCII reading: some letter occurs and no letter is lowercase). -/
def pyIsUpper (s : String) : Bool :=
  s.data.any Char.isAlpha && s.data.all (fun c => !(c.isLower))

/-- `needle in hay` for character lists: some suffix of `hay` starts with
`needle`. -/
def listContainsSub (hay needle : List Char) : Bool :=
  match hay with
  | [] => needle.isEmpty
  | _ :: t => needle.isPrefixOf hay || listContainsSub t needle

/-- Python substring membership `needle in hay`. -/
def strContainsSub (hay needle : String) : Bool :=
  listContainsSub hay.data needle.data

/-- `str.startswith(p)`. -/
def pyStartsWith (s p : String) : Bool :=
  p.data.isPrefixOf s.data

/-- Number of occurrences of a character, `str.count(c)` for a single
character argument. -/
def pyCountChar (s : String) (c : Char) : Nat :=
  s.data.countP (fun d => d = c)

/-- `str.split()` with no argument: split on runs of whitespace, discarding
empty fields. -/
def pySplitWs (s : String) : List String :=
  ((s.data.splitOnP pyIsSpace).filter (fun w => !w.isEmpty)).map List.asString

/-! ### The regular expressions of `pdf_processor.py` and `app.py`

`chapter_pattern = re.compile(r'Chapter\s+(\d+\.?\d*\.?\d*\.?\d*)')` and
`section_pattern = re.compile(r'(\d+\.?\d*\.?\d*\.?\d*)\s+[A-Z]')`.
The capture group `\d+\.?\d*\.?\d*\.?\d*` is one digit run followed by up
to three greedy rounds of an optional dot and a digit run.  Because the
characters demanded after the group (whitespace, then for the section
pattern an uppercase letter) are neither digits nor dots, the greedy
maximal-munch parse of the group is the unique relevant one, so the
matchers below implement Python's leftmost greedy search exactly. -/

/-- One greedy round of `\.?\d*`: consume a dot if present, then a digit
run.  Returns the consumed characters and the remainder. -/
def numGroupRound (l : List Char) : List Char × List Char :=
  match l with
  | '.' :: t => ('.' :: t.takeWhile pyIsDigit, t.dropWhile pyIsDigit)
  | _ => ([], l)

/-- Greedy match of the capture group `\d+\.?\d*\.?\d*\.?\d*` at the head
of `l`: the captured characters and the remainder, or `none` when no digit
starts `l`. -/
def numGroupMatch (l : List Char) : Option (List Char × List Char) :=
  let d1 := l.takeWhile pyIsDigit
  if d1.isEmpty then none
  else
    let p2 := numGroupRound (l.dropWhile pyIsDigit)
    let p3 := numGroupRound p2.2
    let p4 := numGroupRound p3.2
    some (d1 ++ p2.1 ++ p3.1 ++ p4.1, p4.2)

/-- Try `chapter_pattern` anchored at the head of `l`; yields the capture
group. -/
def chapterMatchAt (l : List Char) : Option String :=
  if ("Chapter".data).isPrefixOf l then
    let rest := l.drop 7
    let sp := rest.takeWhile pyIsSpace
    if sp.isEmpty then none
    else
      match numGroupMatch (rest.dropWhile pyIsSpace) with
      | some (g, _) => some g.asString
      | none => none
  else none

/-- `chapter_pattern.search(text)`: leftmost match, returning group 1. -/
def chapterSearchL (l : List Char) : Option String :=
  match l with
  | [] => none
  | _ :: t =>
    match chapterMatchAt l with
    | some g => some g
    | none => chapterSearchL t

def chapterSearch (s : String) : Option String :=
  chapterSearchL s.data

/-- Try `section_pattern` anchored at the head of `l`; yields the capture
group. -/
def sectionMatchAt (l : List Char) : Option String :=
  match numGroupMatch l with
  | none => none
  | some (g, rest) =>
    let sp := rest.takeWhile pyIsSpace
    if sp.isEmpty then none
    else
      match rest.dropWhile pyIsSpace with
      | c :: _ => if pyIsUpperAZ c then some g.asString else none
      | [] => none

/-- `section_pattern.search(text)`: leftmost match, returning group 1. -/
def sectionSearchL (l : List Char) : Option String :=
  match l with
  | [] => none
  | _ :: t =>
    match sectionMatchAt l with
    | some g => some g
    | none => sectionSearchL t

def sectionSearch (s : String) : Option String :=
  sectionSearchL s.data

/-- `re.match(r'^\s*[\d\-\•\*]\s+', text)`: optional leading whitespace, a
single digit / dash / bullet / asterisk, then at least one whitespace
character. -/
def listMarkerMatch (s : String) : Bool :=
  match s.data.dropWhile pyIsSpace with
  | [] => false
  | c :: t =>
    (pyIsDigit c || c = '-' || c = '•' || c = '*') &&
      (match t with
       | [] => false
       | d :: _ => pyIsSpace d)

/-- Anchored attempt of the step-list pattern `[1-9][0-9]?\.\s` from
`app.py`.  The greedy optional second digit is tried first; when it is
taken the dot and whitespace must follow it, and backtracking to the
one-digit reading is possible only when the second character is itself the
dot.  Returns the match length. -/
def stepMarkerAt (l : List Char) : Option Nat :=
  match l with
  | c1 :: c2 :: c3 :: c4 :: _ =>
    if '1' ≤ c1 && c1 ≤ '9' then
      if pyIsDigit c2 then
        if c3 = '.' && pyIsSpace c4 then some 4 else none
      else if c2 = '.' && pyIsSpace c3 then some 3
      else none
    else none
  | [c1, c2, c3] =>
    if ('1' ≤ c1 && c1 ≤ '9') && c2 = '.' && pyIsSpace c3 then some 3 else none
  | _ => none

/-- `len(re.findall(r'[1-9][0-9]?\.\s', text))`: non-overlapping leftmost
matches.  The fuel argument (initially the text length) only serves
termination; every step consumes at least one character. -/
def stepMarkersCountAux : Nat → List Char → Nat
  | 0, _ => 0
  | _ + 1, [] => 0
  | fuel + 1, c :: t =>
    match stepMarkerAt (c :: t) with
    | some n => 1 + stepMarkersCountAux fuel ((c :: t).drop n)
    | none => stepMarkersCountAux fuel t

def stepMarkersCount (s : String) : Nat :=
  stepMarkersCountAux s.data.length s.data

/-- `re.search(r'[1-9][0-9]?\.\s', text)` viewed as a Boolean. -/
def stepMarkerFound (s : String) : Bool :=
  decide (0 < stepMarkersCount s)

/-! ### Python dictionaries

Metadata dictionaries of the sources are embedded as association lists of
scalar values.  `dget` is `dict.get` (first matching binding wins), and a
dict-literal merge `{k1: v1, ..., **m}` — where the entries of `m`
override the literal keys — is the append `m ++ literal` under this
lookup discipline.  Metadata values occurring in the claims are all
scalars (the only values the Vector Store keeps, cf. `vector_store.py`
`add_documents`, which stringifies anything else). -/

inductive MetaVal where
  | str (v : String)
  | int (v : Int)
  | rat (v : ℚ)
  | bool (v : Bool)
deriving DecidableEq, Repr

abbrev PyDict := List (String × MetaVal)

/-- `d.get(k)` / `d[k]`: first binding for `k`. -/
def dget (d : PyDict) (k : String) : Option MetaVal :=
  match d with
  | [] => none
  | (k', v) :: t => if k' = k then some v else dget t k

/-- `k in d`. -/
def dhas (d : PyDict) (k : String) : Bool :=
  (dget d k).isSome

namespace PdfProcessor

/-! ### `pdf_processor.py` — `EnhancedPDFProcessor`

The PDF itself is external (PyMuPDF / pdfplumber / the OCR engine), so a
page is embedded as the data those collaborators hand the processor: the
positioned text blocks of `page.get_text("blocks")`, the OCR texts
recovered from the page's images (already filtered by
`should_apply_ocr`, which is the OCR collaborator's concern), and the
tables returned by `pdfplumber.extract_tables`. -/

/-- `self.important_keywords`. -/
def importantKeywords : List String :=
  ["business rules", "data module", "publication module",
   "applicability", "brex", "csdb", "ietm", "common source database"]

/-- The `ContentBlock` dataclass.  `metadata = None` defaulting to `{}` in
`__post_init__` is embedded by making the empty dict the default. -/
structure ContentBlock where
  text : String
  content_type : String
  page : Nat
  chapter : String
  bbox : Option (ℚ × ℚ × ℚ × ℚ) := none
  importance : Nat := 1
  metadata : PyDict := []
deriving DecidableEq, Repr

/-- `detect_content_type(text, block_info)`; `block_info` only ever
contributes its `font_size` entry, embedded as an optional rational. -/
def detect_content_type (text : String) (fontSize : Option ℚ := none) : String :=
  if text = "" || (pyStrip text).data.length < 3 then "text"
  else
    let text_lower := pyStrip (pyLower text)
    if text.data.length < 100 &&
        ((chapterSearch text).isSome || (sectionSearch text).isSome ||
          pyIsUpper text ||
          (match fontSize with | some f => decide (14 < f) | none => false)) then
      "heading"
    else if listMarkerMatch text || pyStartsWith text_lower "- " ||
        pyStartsWith text_lower "• " || pyStartsWith text_lower "* " then
      "list"
    else if strContainsSub text "\t" || decide (3 < pyCountChar text '|') then
      "table"
    else "text"

/-- The keyword count inside `calculate_importance`:
`sum(1 for keyword in self.important_keywords if keyword in text_lower)`. -/
def keywordCount (text : String) : Nat :=
  (importantKeywords.filter (fun kw => strContainsSub (pyLower text) kw)).length

/-- `calculate_importance(content_block)`. -/
def calculate_importance (b : ContentBlock) : Nat :=
  let importance1 := 1
  let importance2 := if b.content_type = "heading" then 4 else importance1
  let importance3 := if (chapterSearch b.text).isSome then 5 else importance2
  let kc := keywordCount b.text
  let importance4 := if 0 < kc then min 5 (importance3 + kc) else importance3
  if b.content_type = "table" then max importance4 3 else importance4

/-- `extract_chapter_info(text, current_chapter)`. -/
def extract_chapter_info (text : String) (current_chapter : String := "Unknown") : String :=
  match chapterSearch text with
  | some c => c
  | none =>
    match sectionSearch text with
    | some c => c
    | none => current_chapter

/-- One tuple of `page.get_text("blocks")`: `(x0, y0, x1, y1, text, ...)`.
Tuples shorter than five fields are skipped by the code and are not part
of the model. -/
structure RawBlock where
  x0 : ℚ := 0
  y0 : ℚ := 0
  x1 : ℚ := 0
  y1 : ℚ := 0
  text : String
deriving DecidableEq, Repr

/-- The loop body of `extract_text_blocks_pymupdf`, threading
`current_chapter`. -/
def extractTextBlocksGo (page_num : Nat) : List RawBlock → String → List ContentBlock
  | [], _ => []
  | rb :: rest, current_chapter =>
    if pyStrip rb.text = "" then extractTextBlocksGo page_num rest current_chapter
    else
      let chapter := extract_chapter_info rb.text current_chapter
      let current' := if chapter ≠ "Unknown" then chapter else current_chapter
      let b0 : ContentBlock :=
        { text := pyStrip rb.text
          content_type := detect_content_type rb.text
          page := page_num
          chapter := current'
          bbox := some (rb.x0, rb.y0, rb.x1, rb.y1) }
      let b := { b0 with importance := calculate_importance b0 }
      b :: extractTextBlocksGo page_num rest current'

/-- `extract_text_blocks_pymupdf(page, page_num)`: `current_chapter`
starts at `"Unknown"` for every page. -/
def extract_text_blocks_pymupdf (rawBlocks : List RawBlock) (page_num : Nat) :
    List ContentBlock :=
  extractTextBlocksGo page_num rawBlocks "Unknown"

/-- One image routed through the OCR collaborator: its index on the page,
extension, byte size and the text the OCR engine returned. -/
structure OcrImage where
  idx : Nat
  ext : String := "png"
  size : Nat := 0
  text : String
deriving DecidableEq, Repr

/-- `extract_images_with_ocr(page, page_num, current_chapter)`: an OCR
result produces a `diagram` block only when its stripped text exceeds 10
characters; the block keeps the raw OCR text and gets importance 3. -/
def extract_images_with_ocr (images : List OcrImage) (page_num : Nat)
    (current_chapter : String := "Unknown") : List ContentBlock :=
  images.filterMap (fun img =>
    if img.text ≠ "" && 10 < (pyStrip img.text).data.length then
      some
        { text := img.text
          content_type := "diagram"
          page := page_num
          chapter := current_chapter
          importance := 3
          metadata :=
            [("image_index", .int img.idx), ("image_format", .str img.ext),
             ("image_size", .int img.size), ("ocr_applied", .bool true)] }
    else none)

/-- A pdfplumber table: rows of cells, a cell being `None` or its string
rendering (`str(cell) if cell else ""` collapses falsy cells to `""`,
which `Option.getD ""` reproduces). -/
abbrev PyTable := List (List (Option String))

/-- The row/cell join of `extract_tables_pdfplumber`:
`" | ".join(cells)` per row, rows joined by newlines. -/
def tableText (t : PyTable) : String :=
  String.intercalate "\n" (t.map (fun row => String.intercalate " | " (row.map (·.getD ""))))

/-- `extract_tables_pdfplumber(pdf_path, page_num)` given the tables
pdfplumber found on the page: empty tables are skipped, blocks start with
chapter `"Unknown"` (back-filled by `process_page`) and importance 3. -/
def extract_tables_pdfplumber (tables : List PyTable) (page_num : Nat) :
    List ContentBlock :=
  (tables.enum).filterMap (fun (ti, t) =>
    if t.isEmpty then none
    else
      some
        { text := tableText t
          content_type := "table"
          page := page_num
          chapter := "Unknown"
          importance := 3
          metadata := [("table_index", .int ti), ("rows", .int t.length)] })

/-- Everything the external readers deliver for one page. -/
structure PageData where
  rawBlocks : List RawBlock := []
  images : List OcrImage := []
  tables : List PyTable := []
deriving DecidableEq, Repr

/-- The two feature switches read by `process_page`:
`self.enable_ocr` and the module flag `PDFPLUMBER_AVAILABLE`. -/
structure ProcFlags where
  enableOCR : Bool := false
  pdfplumberAvailable : Bool := false
deriving DecidableEq, Repr

/-- The body of `process_page(page_num)` once the page is open: extract
text blocks, take as `current_chapter` the chapter of the first text
block whose chapter is not `"Unknown"` (that is, the page's first marker
value — the page loop hands no chapter state in), back-fill `"Unknown"`
text blocks with it, then append OCR diagram blocks and table blocks
carrying that same chapter. -/
def processPageData (pg : PageData) (page_num : Nat) (flags : ProcFlags) :
    List ContentBlock :=
  let text_blocks := extract_text_blocks_pymupdf pg.rawBlocks page_num
  let current_chapter :=
    match text_blocks.find? (fun b => b.chapter ≠ "Unknown") with
    | some b => b.chapter
    | none => "Unknown"
  let backfilled := text_blocks.map (fun b =>
    if b.chapter = "Unknown" then { b with chapter := current_chapter } else b)
  let image_blocks :=
    if flags.enableOCR then extract_images_with_ocr pg.images page_num current_chapter
    else []
  let table_blocks :=
    if flags.pdfplumberAvailable then
      (extract_tables_pdfplumber pg.tables page_num).map
        (fun b => { b with chapter := current_chapter })
    else []
  backfilled ++ image_blocks ++ table_blocks

/-- `process_page(page_num)` against the whole document (a list of pages,
1-indexed): pages past the end yield no blocks, exactly as the
`page_num > len(doc)` guard does, and `page_num = 0` reaches
`doc[page_num - 1] = doc[-1]`, which PyMuPDF's negative indexing resolves
to the last page (raising — hence no blocks — only on an empty
document). -/
def process_page (pdf : List PageData) (page_num : Nat) (flags : ProcFlags) :
    List ContentBlock :=
  if pdf.length < page_num then []
  else
    match (if page_num = 0 then pdf.getLast? else pdf.get? (page_num - 1)) with
    | some pg => processPageData pg page_num flags
    | none => []

/-- `process_pdf(start_page, end_page)`: clamp `end_page` to the page
count, then concatenate `process_page` over the (1-indexed, inclusive)
range.  No chapter context crosses the loop iterations. -/
def process_pdf (pdf : List PageData) (start_page : Nat) (end_page : Option Nat)
    (flags : ProcFlags) : List ContentBlock :=
  let total := pdf.length
  let endp := min (end_page.getD total) total
  (List.range' start_page (endp + 1 - start_page)).flatMap
    (fun n => process_page pdf n flags)

/-! #### The per-page chapter assignment, in the words of the corrected
claim

The definitions below restate — independently of the extraction loop —
which chapter the page pass assigns to each span, so that the
correction of the chapter-propagation claim can be proved as a
refinement: a span at or after a chapter/section marker takes the most
recent marker value, a span before the page's first marker is
back-filled with that first marker's value, and on a page with no
marker at all every block gets `"Unknown"`. -/

/-- The chapter or section marker a text span carries: group 1 of
`chapter_pattern` if it matches, else group 1 of `section_pattern`. -/
def markerOf (text : String) : Option String :=
  match chapterSearch text with
  | some c => some c
  | none => sectionSearch text

/-- The spans of a page's raw text blocks that survive the
`if not text or not text.strip(): continue` guard. -/
def keptTexts (l : List RawBlock) : List String :=
  (l.filter (fun rb => !(pyStrip rb.text == ""))).map (fun rb => rb.text)

/-- The most recent marker among a list of spans. -/
def lastMarker : List String → Option String
  | [] => none
  | t :: rest =>
    match lastMarker rest with
    | some c => some c
    | none => markerOf t

/-- The first marker among a list of spans. -/
def firstMarker (l : List String) : Option String :=
  l.findSome? markerOf

/-- The chapter back-filled into pre-marker spans and given to the
page's OCR and table blocks: the page's first marker value, or
`"Unknown"` on a marker-free page. -/
def pageChapter (kept : List String) : String :=
  (firstMarker kept).getD "Unknown"

/-- The chapter values the corrected claim assigns to a page's kept text
spans, span by span: the most recent marker at or before the span, else
the page's own first marker, else `"Unknown"`. -/
def chapterAssignmentSpec (kept : List String) : List String :=
  (List.range kept.length).map (fun i =>
    match lastMarker (kept.take (i + 1)) with
    | some c => c
    | none => pageChapter kept)

/-- The running value of `current_chapter` along a page's kept spans
(the state the extraction loop threads). -/
def carriedChapters : List String → String → List String
  | [], _ => []
  | t :: rest, cur =>
    let cur' := (markerOf t).getD cur
    cur' :: carriedChapters rest cur'

end PdfProcessor

namespace DocumentIndexer

open PdfProcessor

/-! ### `document_indexer.py` — `ContentAwareChunker`

The three `RecursiveCharacterTextSplitter` instances are LangChain
collaborators (chunk size / overlap 1000/200 via `config`, 500/50, 800/100
with their separator hierarchies); only their `split_text` interface is
visible to the chunker, so they are passed as `String → List String`
functions.  Nothing the claims state about the chunker depends on how a
splitter divides its input. -/

/-- The dictionaries `{"text": ..., "metadata": {...}}` produced by
`chunk_content_block`. -/
structure Chunk where
  text : String
  metadata : PyDict
deriving DecidableEq, Repr

/-- The splitters built in `ContentAwareChunker.__init__`. -/
structure ChunkerSplitters where
  textSplit : String → List String
  headingSplit : String → List String
  listSplit : String → List String

/-- `chunk_content_block(block)`.  The metadata dict literals place
`**block.metadata` last, so under the first-match lookup of `PyDict` the
block's own entries are prepended. -/
def chunk_content_block (cs : ChunkerSplitters) (block : ContentBlock) : List Chunk :=
  if block.content_type = "table" || block.content_type = "diagram" then
    [{ text := block.text
       metadata := block.metadata ++
         [("page", .int block.page), ("chapter", .str block.chapter),
          ("content_type", .str block.content_type),
          ("importance", .int block.importance), ("chunked", .bool false)] }]
  else
    let splitter :=
      if block.content_type = "heading" then cs.headingSplit
      else if block.content_type = "list" then cs.listSplit
      else cs.textSplit
    let text_chunks := splitter block.text
    text_chunks.enum.map (fun (i, text_chunk) =>
      { text := text_chunk
        metadata := block.metadata ++
          [("page", .int block.page), ("chapter", .str block.chapter),
           ("content_type", .str block.content_type),
           ("importance", .int block.importance),
           ("chunk_index", .int i), ("total_chunks", .int text_chunks.length),
           ("chunked", .bool true)] })

/-- `chunk_blocks(blocks)`. -/
def chunk_blocks (cs : ChunkerSplitters) (blocks : List ContentBlock) : List Chunk :=
  blocks.flatMap (chunk_content_block cs)

end DocumentIndexer

namespace VectorStore

/-! ### `vector_store.py`

`ChromaVectorStore` wraps an external ChromaDB collection.  A collection
is embedded as its stored documents in insertion order;
`collection.add(embeddings=…, documents=…, metadatas=…, ids=…)` is the
backend call, which ChromaDB rejects (raising, nothing stored) when the
four lists do not all have the same length, and otherwise appends the
records.  The sentence-transformers embedding function is an opaque
deterministic `String → List ℚ` parameter. -/

/-- One record of a ChromaDB collection. -/
structure StoredDoc where
  id : String
  embedding : List ℚ
  document : String
  metadata : PyDict
deriving DecidableEq, Repr

/-- A ChromaDB collection: its stored records, in insertion order. -/
structure ChromaCollection where
  docs : List StoredDoc := []
deriving DecidableEq, Repr

/-- `collection.count()`. -/
def collectionCount (c : ChromaCollection) : Nat :=
  c.docs.length

/-- The backend `collection.add` call: all four argument lists must have
one entry per document, otherwise ChromaDB raises and stores nothing. -/
def collectionAdd (c : ChromaCollection) (embeddings : List (List ℚ))
    (documents : List String) (metadatas : List PyDict) (ids : List String) :
    Except String ChromaCollection :=
  if embeddings.length = documents.length && metadatas.length = documents.length
      && ids.length = documents.length then
    .ok ⟨c.docs ++ (ids.zip (embeddings.zip (documents.zip metadatas))).map
      (fun (i, e, d, m) => ⟨i, e, d, m⟩)⟩
  else
    .error "chromadb: unequal lengths of ids, embeddings, documents and metadatas"

/-- `isinstance(value, (str, int, float, bool))` is true of every
`MetaVal`, so the metadata-cleaning loop of `add_documents` keeps each
entry unchanged (non-scalar Python values, which it would stringify, do
not occur in this model). -/
def cleanMetadata (m : PyDict) : PyDict :=
  m.map (fun (k, v) => (k, v))

/-- The batching loop of `ChromaVectorStore.add_documents`:
`for i in range(0, len(texts), batch_size)` slices each list separately
and issues one backend `add` per batch.  A raising batch propagates the
exception, but the batches already added stay in the collection; the
result pairs the final collection state with the error, if any.  The fuel
is the number of remaining batches. -/
def addBatchesAux (embeddings : List (List ℚ)) (texts : List String)
    (metadatas : List PyDict) (ids : List String) (batch_size : Nat) :
    Nat → Nat → ChromaCollection → ChromaCollection × Option String
  | 0, _, c => (c, none)
  | fuel + 1, i, c =>
    match collectionAdd c ((embeddings.drop i).take batch_size)
        ((texts.drop i).take batch_size) ((metadatas.drop i).take batch_size)
        ((ids.drop i).take batch_size) with
    | .ok c' => addBatchesAux embeddings texts metadatas ids batch_size fuel (i + batch_size) c'
    | .error e => (c, some e)

/-- `ChromaVectorStore.add_documents(texts, metadatas, ids)` with the
configured embedding function and `config.BATCH_SIZE`.  Returns the
collection after the call together with the exception it raised, if any:
the code validates nothing itself — ids are generated from the current
count, embeddings are taken per text, and the slices go to the backend
batch by batch. -/
def add_documents (embed : String → List ℚ) (batch_size : Nat)
    (c : ChromaCollection) (texts : List String) (metadatas : List PyDict)
    (idsArg : Option (List String) := none) :
    ChromaCollection × Option String :=
  if texts.isEmpty then (c, none)
  else if batch_size = 0 then
    -- `range(0, n, 0)` raises `ValueError` before anything is added.
    (c, some "ValueError: range() arg 3 must not be zero")
  else
    let ids :=
      match idsArg with
      | some ids => ids
      | none =>
        (List.range texts.length).map
          (fun i => "doc_" ++ toString (collectionCount c + i))
    let embeddings := texts.map embed
    let clean_metadatas := metadatas.map cleanMetadata
    let numBatches := (texts.length + batch_size - 1) / batch_size
    addBatchesAux embeddings texts clean_metadatas ids batch_size numBatches 0 c

/-- A LangChain `Document`, as FAISS stores and returns it. -/
structure LCDoc where
  page_content : String
  metadata : PyDict
deriving DecidableEq, Repr

/-- One formatted result dict of either store's `search`. -/
structure StoreResult where
  text : String
  metadata : PyDict
  score : ℚ
deriving DecidableEq, Repr

/-- `FAISSVectorStore.search(query, k)` given what the LangChain index's
`similarity_search_with_score` returned for that query and `k`:
`(Document, score)` pairs where the score is the raw L2 distance — lower
means more similar — listed most-similar-first, i.e. in ascending score
order, at most `k` of them.  The code formats the pairs in that order,
converting nothing. -/
def faissSearchFormat (response : List (LCDoc × ℚ)) : List StoreResult :=
  response.map (fun (doc, score) =>
    { text := doc.page_content, metadata := doc.metadata, score := score })

/-- `ChromaVectorStore.search(query, k)` given the backend reply: ChromaDB
returns at most `k` hits in ascending distance order; the code converts
each distance to a similarity `1 - distance`. -/
def chromaSearchFormat (response : List (String × PyDict × ℚ)) : List StoreResult :=
  response.map (fun (document, metadata, distance) =>
    { text := document, metadata := metadata, score := 1 - distance })

end VectorStore

namespace App

open VectorStore

/-! ### `app.py` — the Search & Scoring Engine

`quick_search` reads the process-wide globals `index_store` (a LangChain
FAISS index, `None` until `index_documents` ran) and `document_metadata`
(page texts and per-page module names, integer page keys as built by
`index_documents`).  Both are parameters here.  The index's
`similarity_search_with_score(query, k)` is embedded as a function of `k`
returning either the hit list or the raised exception; `quick_search`
invokes it with `k = 20` and, on the special-intent path, once more with
`k = 1`.  `extract_context` only shapes the text payload of fallback
results (it returns a list of words in the source); no claim depends on
it, so it is passed in as a function. -/

/-- The `document_metadata` global, as `index_documents` populates it:
page texts and module names keyed by the integer page number, plus the
ICN page list used by `keyword_search(icn_related=True)`. -/
structure DocumentMetadata where
  page_content : List (Nat × String) := []
  module_info : List (Nat × String) := []
  icn_pages : List Nat := []

/-- The text payload of a result dict: the vector path stores a string
under `"text"`, the keyword fallback stores `extract_context`'s word list
under `"page_content"`. -/
inductive AppBody where
  | text (s : String)
  | context (ws : List String)
deriving DecidableEq, Repr

/-- A result dict of `quick_search` / `keyword_search`. -/
structure AppResult where
  body : AppBody
  metadata : PyDict
  score : ℚ
deriving DecidableEq, Repr

/-- The key `lambda x: x["metadata"]["page"]` of the fallback sort; the
fallback always stores the integer page number there. -/
def pageKeyZ (r : AppResult) : Int :=
  match dget r.metadata "page" with
  | some (.int n) => n
  | _ => 0

/-- `lambda x: x['score']` with `reverse=True`: Python's stable
descending sort, which `List.insertionSort` with this relation
reproduces exactly (equal keys keep their input order). -/
def scoreGE (a b : AppResult) : Prop :=
  b.score ≤ a.score

instance : DecidableRel scoreGE := fun a b => inferInstanceAs (Decidable (b.score ≤ a.score))

instance : IsTotal AppResult scoreGE := ⟨fun a b => le_total b.score a.score⟩

instance : IsTrans AppResult scoreGE := ⟨fun _ _ _ h h' => le_trans h' h⟩

/-- The ascending-page relation of `keyword_search`'s final sort. -/
def pageLE (a b : AppResult) : Prop :=
  pageKeyZ a ≤ pageKeyZ b

instance : DecidableRel pageLE := fun a b => inferInstanceAs (Decidable (pageKeyZ a ≤ pageKeyZ b))

instance : IsTotal AppResult pageLE := ⟨fun a b => le_total (pageKeyZ a) (pageKeyZ b)⟩

instance : IsTrans AppResult pageLE := ⟨fun _ _ _ h h' => le_trans h h'⟩

/-- `is_business_rules_steps_query`: the `any([...])` of five
substring-conjunction tests on the lowercased query. -/
def is_business_rules_steps_query (query_text : String) : Bool :=
  let q := pyLower query_text
  (strContainsSub q "major steps" && strContainsSub q "business rules") ||
  (strContainsSub q "step" && strContainsSub q "produc" && strContainsSub q "business rule") ||
  (strContainsSub q "13 step" && strContainsSub q "business rule") ||
  (strContainsSub q "thirteen step" && strContainsSub q "business rule") ||
  (strContainsSub q "steps in" && strContainsSub q "business rule")

/-- The keyword list of `keyword_search`:
`query_text.lower().strip().split()`. -/
def queryKeywords (query_text : String) : List String :=
  pySplitWs (pyStrip (pyLower query_text))

/-- The per-page matches of `keyword_search`:
`[kw for kw in keywords if kw in page_content]` against the lowercased
stored page text. -/
def kwMatches (dm : DocumentMetadata) (query_text : String) (page_num : Nat) :
    List String :=
  let page_content := pyLower ((List.lookup page_num dm.page_content).getD "")
  (queryKeywords query_text).filter (fun kw => strContainsSub page_content kw)

/-- The loop body of `keyword_search` for one page: when some keywords
are found in the page's lowercased text, build the result dict with the
context extract, the page/module metadata and the matched fraction as
score. -/
def kwResult (dm : DocumentMetadata)
    (extract_context : String → List String → List String)
    (query_text : String) (page_num : Nat) : Option AppResult :=
  let page_content := pyLower ((List.lookup page_num dm.page_content).getD "")
  let module_name := (List.lookup page_num dm.module_info).getD "Undefined"
  let found := kwMatches dm query_text page_num
  if found.isEmpty then none
  else
    some
      { body := .context (extract_context page_content found)
        metadata := [("page", .int page_num), ("module", .str module_name)]
        score := (found.length : ℚ) / ((queryKeywords query_text).length : ℚ) }

/-- `keyword_search(query_text, icn_related)`: scan the stored page texts
in page order, score each matching page by the fraction of query keywords
found in it, and sort the hits by ascending page number. -/
def keyword_search (dm : DocumentMetadata)
    (extract_context : String → List String → List String)
    (query_text : String) (icn_related : Bool := false) : List AppResult :=
  let pages_to_search :=
    if icn_related then dm.icn_pages else dm.page_content.map Prod.fst
  (pages_to_search.filterMap (kwResult dm extract_context query_text)).insertionSort pageLE

/-- The module string of a result's metadata, `metadata.get('module', '')`
(module values are strings everywhere the app stores them). -/
def moduleStrOf (m : PyDict) : String :=
  match dget m "module" with
  | some (.str s) => s
  | _ => ""

/-- `page == '2' or page == 2` on `metadata.get('page', '')`. -/
def pageIs2 (m : PyDict) : Bool :=
  dget m "page" = some (.str "2") || dget m "page" = some (.int 2)

/-- `page == '3' or page == 3`. -/
def pageIs3 (m : PyDict) : Bool :=
  dget m "page" = some (.str "3") || dget m "page" = some (.int 3)

/-- The loop body of `quick_search`'s vector path: apply the
special-intent additive boosts to the raw similarity score and keep the
result only when the adjusted score clears the `0.1` relevance floor. -/
def boostAndFilter (is_biz : Bool) (doc : LCDoc) (score : ℚ) : Option AppResult :=
  let chapter := moduleStrOf doc.metadata
  let base1 := score
  let base2 :=
    if is_biz then
      let b1 :=
        if chapter = "2.5.2" then (4 : ℚ)
        else if pyStartsWith chapter "2.5" then 2
        else 0
      let b2 :=
        if pageIs2 doc.metadata then (3 : ℚ)
        else if pageIs3 doc.metadata then 2
        else 0
      let text := pyLower doc.page_content
      let b3 :=
        if strContainsSub text "13 steps" || strContainsSub text "thirteen steps" then (5 : ℚ)
        else 0
      let b4 :=
        if stepMarkerFound text && strContainsSub text "business rule" then (3 : ℚ)
        else 0
      let b5 := if 10 ≤ stepMarkersCount text then (4 : ℚ) else 0
      base1 + b1 + b2 + b3 + b4 + b5
    else base1
  if (1 : ℚ)/10 < base2 then
    some { body := .text doc.page_content, metadata := doc.metadata, score := base2 }
  else none

/-- The mock result `quick_search` returns while no index is built. -/
def mockResult : AppResult :=
  { body := .text ("S1000D is a standard for technical documentation. " ++
      "Since no documents are indexed, this is a mock response.")
    metadata := [("page", .int 1), ("module", .str "Introduction"),
                 ("important", .bool false)]
    score := 4/5 }

/-- The candidate list of `quick_search`: the boosted-and-filtered
`k = 20` vector hits, or the keyword fallback when the store call
raised. -/
def quickSearchResults (sim : Nat → Except String (List (LCDoc × ℚ)))
    (dm : DocumentMetadata)
    (extract_context : String → List String → List String)
    (query_text : String) : List AppResult :=
  match sim 20 with
  | .ok vector_results =>
    vector_results.filterMap (fun p =>
      boostAndFilter (is_business_rules_steps_query query_text) p.1 p.2)
  | .error _ => keyword_search dm extract_context query_text

/-- The candidates stably sorted by descending score (`results.sort(key=
score, reverse=True)`) and truncated to the top 20. -/
def quickSearchSorted (sim : Nat → Except String (List (LCDoc × ℚ)))
    (dm : DocumentMetadata)
    (extract_context : String → List String → List String)
    (query_text : String) : List AppResult :=
  ((quickSearchResults sim dm extract_context query_text).insertionSort scoreGE).take 20

/-- `r.get('metadata', {}).get('module') == '2.5.2'`. -/
def module252Pred (r : AppResult) : Bool :=
  dget r.metadata "module" = some (.str "2.5.2")

/-- The splice condition on a `(doc, score)` hit of the extra `k = 1`
lookup: `metadata.get('module') == '2.5.2' and (metadata.get('page') ==
'2' or metadata.get('page') == 2)`. -/
def spliceTarget (p : LCDoc × ℚ) : Bool :=
  dget p.1.metadata "module" = some (.str "2.5.2") &&
    (dget p.1.metadata "page" = some (.str "2") || dget p.1.metadata "page" = some (.int 2))

/-- The result dict inserted at position 0 by the splice, with score
`float(10.0)`. -/
def spliceResult (doc : LCDoc) : AppResult :=
  { body := .text doc.page_content, metadata := doc.metadata, score := 10 }

/-- `quick_search(query_text)`.  `index_store` is `none` while unset; when
set, `sim k` is the outcome of
`index_store.similarity_search_with_score(query_text, k)`.  The vector
path boosts and filters the `k = 20` hits; a raising store call falls
back to `keyword_search`.  Either way the results are stably sorted by
descending score and truncated to 20.  For special-intent queries with no
chapter-2.5.2 candidate among them, one more `k = 1` lookup is made and
its hit — if that hit itself carries module 2.5.2 and page 2 — is
inserted at the front with score 10.0 (an exception there is swallowed). -/
def quick_search
    (index_store : Option (Nat → Except String (List (LCDoc × ℚ))))
    (dm : DocumentMetadata)
    (extract_context : String → List String → List String)
    (query_text : String) : List AppResult :=
  match index_store with
  | none => [mockResult]
  | some sim =>
    let sorted := quickSearchSorted sim dm extract_context query_text
    if is_business_rules_steps_query query_text then
      if sorted.any module252Pred then sorted
      else
        match sim 1 with
        | .ok docs =>
          match docs.find? spliceTarget with
          | some (doc, _) => spliceResult doc :: sorted
          | none => sorted
        | .error _ => sorted
    else sorted

end App

/-! ### Concrete sample data

Closed instances used by the counterexamples and witnesses below.  They
are data the pipeline itself produces or consumes: blocks shaped like the
extractor's output, LangChain documents shaped like `index_documents`'
metadata (integer `page`, string `module`, boolean `important`), and
similarity responses consistent with a fixed ranking. -/

open PdfProcessor DocumentIndexer VectorStore App

/-- Splitters that hand back the whole text; the table/diagram branch of
the chunker never invokes them. -/
def idSplitters : ChunkerSplitters :=
  ⟨fun s => [s], fun s => [s], fun s => [s]⟩

/-- A table block exactly as `extract_tables_pdfplumber` builds one. -/
def sampleTableBlock : ContentBlock :=
  { text := "a | b\nc | d"
    content_type := "table"
    page := 2
    chapter := "2.5"
    importance := 3
    metadata := [("table_index", .int 0), ("rows", .int 2)] }

/-- The one chunk `chunk_content_block` produces from `sampleTableBlock`. -/
def sampleTableChunk : DocumentIndexer.Chunk :=
  { text := "a | b\nc | d"
    metadata := [("table_index", .int 0), ("rows", .int 2), ("page", .int 2),
      ("chapter", .str "2.5"), ("content_type", .str "table"),
      ("importance", .int 3), ("chunked", .bool false)] }

/-- A text block of the shape `extract_text_blocks_pymupdf` emits. -/
def sampleTextBlock : ContentBlock :=
  { text := "The data module is the standard unit of information."
    content_type := "text"
    page := 7
    chapter := "3.2"
    bbox := some (0, 0, 100, 20)
    importance := 2 }

/-- A two-page document: page 1 carries a chapter marker, page 2 does
not. -/
def twoPagePdf : List PageData :=
  [{ rawBlocks := [{ text := "Chapter 3.1 Introduction" }] },
   { rawBlocks := [{ text := "plain words here" }] }]

/-- A page whose first span precedes its chapter marker and which also
carries one pdfplumber table: it exercises the back-fill of pre-marker
spans and the chapter handed to table blocks. -/
def backfillPage : PageData :=
  { rawBlocks := [{ text := "intro words here" }, { text := "Chapter 3.1 Overview" },
      { text := "more details here" }]
    tables := [[[some "a", some "b"]]] }

/-- Flags enabling the pdfplumber table pass for `backfillPage`. -/
def backfillFlags : ProcFlags :=
  { pdfplumberAvailable := true }

/-- An indexed chunk unrelated to chapter 2.5.2. -/
def sampleDocA : LCDoc :=
  { page_content := "alpha"
    metadata := [("page", .int 1), ("module", .str "1.1"), ("important", .bool false)] }

/-- The known-answer chunk: chapter 2.5.2, page 2. -/
def sampleDoc252 : LCDoc :=
  { page_content := "the major steps in producing business rules"
    metadata := [("page", .int 2), ("module", .str "2.5.2"), ("important", .bool true)] }

/-- A fixed similarity ranking over 21 indexed chunks in which the
known-answer chunk ranks last (an embedding-similarity miss): 20 copies
of an unrelated chunk at similarity 9/10, then the known-answer chunk at
1/2. -/
def rankedHits : List (LCDoc × ℚ) :=
  List.replicate 20 (sampleDocA, 9/10) ++ [(sampleDoc252, 1/2)]

/-- A consistent store over `rankedHits`: `search(q, k)` returns its top
`k`. -/
def rankedSim : Nat → Except String (List (LCDoc × ℚ)) :=
  fun k => .ok (rankedHits.take k)

/-- A FAISS `similarity_search_with_score` reply: two hits with L2
distances 1/5 and 7/10, listed most-similar-first, i.e. in ascending
distance order as LangChain returns them. -/
def faissReply : List (LCDoc × ℚ) :=
  [(sampleDocA, 1/5), (sampleDoc252, 7/10)]

/-- Descending-score order on formatted store results (the order §8 of
the spec demands of `search`). -/
def storeScoreGE (a b : StoreResult) : Prop :=
  b.score ≤ a.score

instance : DecidableRel storeScoreGE :=
  fun a b => inferInstanceAs (Decidable (b.score ≤ a.score))

/-- The score-descending, page-ascending-on-ties order the fallback
search path is claimed to produce. -/
def scorePageLex (a b : AppResult) : Prop :=
  b.score < a.score ∨ (a.score = b.score ∧ App.pageKeyZ a ≤ App.pageKeyZ b)

/-- A one-page metadata store whose page text contains the query keyword
used by the fallback-search witness. -/
def sampleDm : DocumentMetadata :=
  { page_content := [(1, "alpha beta")], module_info := [(1, "2.1")] }

/-- A store whose calls always raise (the vector backend is down). -/
def downSim : Nat → Except String (List (LCDoc × ℚ)) :=
  fun _ => .error "store unavailable"

/-- A store whose `k = 20` call raises but whose `k = 1` call succeeds
with the known-answer chunk (a transient failure between the two calls). -/
def flakySim : Nat → Except String (List (LCDoc × ℚ)) :=
  fun k => if k = 1 then .ok [(sampleDoc252, 1/2)] else .error "store unavailable"

/-- A sample metadata dict for the mismatched `add_documents` call. -/
def samplePageMeta : PyDict :=
  [("page", .int 1), ("chapter", .str "1.1"), ("content_type", .str "text"),
   ("importance", .int 2), ("chunk_index", .int 0), ("total_chunks", .int 1),
   ("chunked", .bool true)]

/-- A constant embedding function for concrete evaluations of
`add_documents` (its values never influence the stored lengths). -/
def constEmbed : String → List ℚ :=
  fun _ => [0]

/-- A plain text block containing one configured keyword. -/
def kwBlockOne : ContentBlock :=
  { text := "business rules", content_type := "text", page := 1, chapter := "Unknown" }

/-- The same block with a second configured keyword appended. -/
def kwBlockTwo : ContentBlock :=
  { text := "business rules data module", content_type := "text", page := 1,
    chapter := "Unknown" }

/-- A short all-uppercase span containing the configured keyword `brex`;
the classifier types it as a heading. -/
def brexBlock : ContentBlock :=
  { text := "BREX", content_type := detect_content_type "BREX", page := 1,
    chapter := "Unknown" }

/-- A chapter-marker heading block. -/
def chapterMarkerBlock : ContentBlock :=
  { text := "Chapter 2.5.2 Producing business rules", content_type := "heading",
    page := 2, chapter := "2.5.2" }

/-! ### Shared lemmas -/

/-- Lookup in a merged dict falls through to the right part when the left
part lacks the key (the `{literal, **m}` merge places `m` first under the
first-match discipline). -/
theorem dget_append_of_none {m : PyDict} {k : String} (d : PyDict)
    (h : dget m k = none) : dget (m ++ d) k = dget d k := by
  induction m with
  | nil => rfl
  | cons p t ih =>
    obtain ⟨k', v⟩ := p
    by_cases hk : k' = k
    · exact absurd h (by simp [dget, hk])
    · have h' : dget t k = none := by simpa [dget, hk] using h
      simpa [dget, hk] using ih h'

/-! ### Claim C1 -/

/-- Claim C1: for every `ContentBlock` whose `content_type` is `"table"`
or `"diagram"`, `chunk_content_block` yields exactly one chunk, that
chunk's text is the block's full text, and its metadata field `"chunked"`
is `false`.  The hypothesis that the block's own metadata dict does not
bind `"chunked"` holds of every block the extractor produces (their
metadata keys are `table_index`, `rows`, `image_index`, `image_format`,
`image_size`, `ocr_applied`); without it the `**block.metadata` merge
could shadow the literal entry. -/
theorem table_diagram_single_unsplit_chunk (cs : ChunkerSplitters)
    (block : ContentBlock)
    (hty : block.content_type = "table" ∨ block.content_type = "diagram")
    (hm : dget block.metadata "chunked" = none) :
    (chunk_content_block cs block).length = 1 ∧
      ∀ c ∈ chunk_content_block cs block,
        c.text = block.text ∧ dget c.metadata "chunked" = some (.bool false) := by
  have hcond : (block.content_type = "table" || block.content_type = "diagram") = true := by
    rcases hty with h | h <;> simp [h]
  rw [chunk_content_block, if_pos hcond]
  refine ⟨rfl, ?_⟩
  intro c hc
  rcases List.mem_singleton.mp hc with rfl
  exact ⟨rfl, by rw [dget_append_of_none _ hm]; rfl⟩

/-- Witness for C1 at the concrete table block
`extract_tables_pdfplumber` shapes, instantiated at the chunk it
produces. -/
theorem table_diagram_single_unsplit_chunk_witness :
    (chunk_content_block idSplitters sampleTableBlock).length = 1 ∧
      sampleTableChunk.text = sampleTableBlock.text ∧
      dget sampleTableChunk.metadata "chunked" = some (.bool false) :=
  ⟨(table_diagram_single_unsplit_chunk idSplitters sampleTableBlock
      (Or.inl (by decide)) (by decide)).1,
   (table_diagram_single_unsplit_chunk idSplitters sampleTableBlock
      (Or.inl (by decide)) (by decide)).2 sampleTableChunk (by decide)⟩

/-! ### Claim C8 -/

/-- Counterexample to C8: the single chunk made of a table block carries
no `"chunk_index"` (and no `"total_chunks"`) metadata entry — only the
split branch of `chunk_content_block` writes the chunk-sequence trio, so
the claim that every chunk carries all three fields is false. -/
theorem table_chunk_lacks_sequence_fields :
    (chunk_content_block idSplitters sampleTableBlock).length = 1 ∧
      ∀ c ∈ chunk_content_block idSplitters sampleTableBlock,
        dhas c.metadata "chunk_index" = false ∧
          dhas c.metadata "total_chunks" = false := by
  decide

/-- C8 as amended: every chunk copies the parent block's `page`,
`chapter`, `content_type` and `importance` and carries `chunked`; the
chunks of split blocks (content types other than table/diagram)
additionally carry `chunk_index` and `total_chunks` with `chunked =
true`, while table/diagram chunks carry `chunked = false` and no
`chunk_index`/`total_chunks`.  The hypothesis keeps the block's own
metadata from shadowing the reserved keys, as is true of every block the
extractor produces. -/
theorem chunk_metadata_fields (cs : ChunkerSplitters) (block : ContentBlock)
    (hm : ∀ k ∈ ["page", "chapter", "content_type", "importance",
        "chunk_index", "total_chunks", "chunked"], dget block.metadata k = none) :
    ∀ c ∈ chunk_content_block cs block,
      dget c.metadata "page" = some (.int block.page) ∧
      dget c.metadata "chapter" = some (.str block.chapter) ∧
      dget c.metadata "content_type" = some (.str block.content_type) ∧
      dget c.metadata "importance" = some (.int block.importance) ∧
      (block.content_type = "table" ∨ block.content_type = "diagram" →
        dget c.metadata "chunked" = some (.bool false) ∧
        dget c.metadata "chunk_index" = none ∧
        dget c.metadata "total_chunks" = none) ∧
      (¬(block.content_type = "table" ∨ block.content_type = "diagram") →
        dget c.metadata "chunked" = some (.bool true) ∧
        (dget c.metadata "chunk_index").isSome = true ∧
        (dget c.metadata "total_chunks").isSome = true) := by
  intro c hc
  by_cases hty : block.content_type = "table" || block.content_type = "diagram"
  · rw [chunk_content_block, if_pos hty] at hc
    rcases List.mem_singleton.mp hc with rfl
    refine ⟨?_, ?_, ?_, ?_, fun _ => ⟨?_, ?_, ?_⟩, fun h => absurd (by simpa using hty) h⟩ <;>
      rw [dget_append_of_none _ (hm _ (by simp))] <;> rfl
  · rw [chunk_content_block, if_neg hty] at hc
    simp only [List.mem_map] at hc
    obtain ⟨⟨i, t⟩, _, rfl⟩ := hc
    refine ⟨?_, ?_, ?_, ?_, fun h => absurd h (by simpa using hty), fun _ => ⟨?_, ?_, ?_⟩⟩ <;>
      rw [dget_append_of_none _ (hm _ (by simp))] <;> rfl

/-- Witness for C8's amended statement at the concrete table block,
instantiated at the chunk it produces. -/
theorem chunk_metadata_fields_witness :
    dget sampleTableChunk.metadata "page" = some (.int sampleTableBlock.page) ∧
      dget sampleTableChunk.metadata "chapter" = some (.str sampleTableBlock.chapter) ∧
      dget sampleTableChunk.metadata "content_type" =
        some (.str sampleTableBlock.content_type) ∧
      dget sampleTableChunk.metadata "importance" =
        some (.int sampleTableBlock.importance) ∧
      (sampleTableBlock.content_type = "table" ∨ sampleTableBlock.content_type = "diagram" →
        dget sampleTableChunk.metadata "chunked" = some (.bool false) ∧
        dget sampleTableChunk.metadata "chunk_index" = none ∧
        dget sampleTableChunk.metadata "total_chunks" = none) ∧
      (¬(sampleTableBlock.content_type = "table" ∨
          sampleTableBlock.content_type = "diagram") →
        dget sampleTableChunk.metadata "chunked" = some (.bool true) ∧
        (dget sampleTableChunk.metadata "chunk_index").isSome = true ∧
        (dget sampleTableChunk.metadata "total_chunks").isSome = true) :=
  chunk_metadata_fields idSplitters sampleTableBlock (by decide) sampleTableChunk (by decide)

/-! ### Claim C10 -/

/-- Claim C10: with the global `index_store` unset, `quick_search`
neither raises nor returns an empty list: for every query it returns
exactly the hard-coded mock result, whose score is 0.8, whose page is 1
and whose text says no documents are indexed. -/
theorem quick_search_unset_index_mock (dm : DocumentMetadata)
    (ectx : String → List String → List String) (q : String) :
    quick_search none dm ectx q = [mockResult] ∧
      mockResult.score = 4/5 ∧
      dget mockResult.metadata "page" = some (.int 1) ∧
      mockResult.body = .text ("S1000D is a standard for technical documentation. " ++
        "Since no documents are indexed, this is a mock response.") :=
  ⟨rfl, rfl, by decide, rfl⟩

/-! ### Claim C6 -/

/-- Claim C6: classifier importance is monotonic in the keyword-match
count.  For two blocks of the same content type, if the second text is
found to contain one more distinct configured important keyword
(case-insensitive substring, as `keywordCount` counts them) and has not
lost a chapter-numbering match, its computed importance is at least the
first's — each found keyword adds 1, capped at 5, on top of the base
value, so the count hypothesis captures exactly "adding one more
configured keyword to an otherwise-fixed text". -/
theorem importance_monotone_in_keywords (b b' : ContentBlock)
    (hct : b'.content_type = b.content_type)
    (hkw : keywordCount b'.text = keywordCount b.text + 1)
    (hch : (chapterSearch b.text).isSome = true → (chapterSearch b'.text).isSome = true) :
    calculate_importance b ≤ calculate_importance b' := by
  simp only [calculate_importance, hct, hkw]
  split_ifs <;>
    first
      | omega
      | exact absurd (hch (by assumption)) (by assumption)

/-- Witness for C6: appending `" data module"` to a block containing
`"business rules"` raises the keyword count from 1 to 2 and cannot lower
the importance. -/
theorem importance_monotone_in_keywords_witness :
    calculate_importance kwBlockOne ≤ calculate_importance kwBlockTwo :=
  importance_monotone_in_keywords kwBlockOne kwBlockTwo rfl (by decide) (by decide)

/-! ### Claim C7 -/

/-- Counterexample to C7: the text `"BREX"` is classified as a heading
(all-uppercase, short) and contains the configured keyword `brex`, so
`calculate_importance` returns `min 5 (4 + 1) = 5` although the text
matches no chapter-numbering pattern — importance 5 is not reserved for
chapter-marker blocks. -/
theorem importance_five_without_chapter_marker :
    detect_content_type "BREX" = "heading" ∧
      chapterSearch "BREX" = none ∧
      calculate_importance brexBlock = 5 := by
  decide

/-- C7 as amended: importance always lies in 1..5 and every
chapter-marker block gets exactly 5, but 5 is not exclusive to
chapter-marker blocks (keyword increments can reach it, as the
counterexample shows). -/
theorem importance_range_and_chapter_marker (b : ContentBlock) :
    1 ≤ calculate_importance b ∧ calculate_importance b ≤ 5 ∧
      ((chapterSearch b.text).isSome = true → calculate_importance b = 5) := by
  refine ⟨?_, ?_, fun h => ?_⟩ <;>
    simp only [calculate_importance] <;>
    split_ifs <;>
    omega

/-- Witness for C7's amended statement: a chapter-marker block receives
importance 5. -/
theorem importance_range_and_chapter_marker_witness :
    calculate_importance chapterMarkerBlock = 5 :=
  (importance_range_and_chapter_marker chapterMarkerBlock).2.2 (by decide)

/-! ### Claim C2 -/

/-- Counterexample to C2: processing pages 1–2 of `twoPagePdf`, page 1
establishes chapter `"3.1"`, yet the single block of the marker-free
page 2 comes out with chapter `"Unknown"` — the page loop of
`process_pdf` carries no chapter state between pages, so nothing is
inherited "from previously processed pages of the same run". -/
theorem chapter_not_carried_across_pages :
    (process_pdf twoPagePdf 1 none {}).map (fun b => (b.page, b.chapter)) =
      [(1, "3.1"), (2, "Unknown")] ∧ ("Unknown" : String) ≠ "3.1" := by
  decide

/-- A non-empty digit run starts with a digit. -/
theorem takeWhile_digit_head (l : List Char)
    (h : (l.takeWhile pyIsDigit).isEmpty = false) :
    ∃ c cs, l.takeWhile pyIsDigit = c :: cs ∧ pyIsDigit c = true := by
  cases l with
  | nil => simp [List.takeWhile] at h
  | cons c cs =>
    rw [List.takeWhile_cons] at h ⊢
    by_cases hc : pyIsDigit c = true
    · rw [if_pos hc]
      exact ⟨c, _, rfl, hc⟩
    · rw [if_neg hc] at h
      simp at h

/-- The capture group of the numbering pattern starts with a digit. -/
theorem numGroupMatch_digit_head {l g rest : List Char}
    (h : numGroupMatch l = some (g, rest)) :
    ∃ c cs, g = c :: cs ∧ pyIsDigit c = true := by
  simp only [numGroupMatch] at h
  by_cases hd : (l.takeWhile pyIsDigit).isEmpty
  · rw [if_pos hd] at h
    cases h
  · rw [if_neg hd] at h
    obtain ⟨c, cs, hcs, hc⟩ := takeWhile_digit_head l (Bool.eq_false_iff.mpr hd)
    rw [Option.some_inj, Prod.mk.injEq] at h
    obtain ⟨h1, -⟩ := h
    rw [hcs, List.cons_append, List.cons_append, List.cons_append] at h1
    exact ⟨c, _, h1.symm, hc⟩

/-- A digit-led character list is not the sentinel's character list. -/
theorem digit_head_ne_unknown {c : Char} {cs : List Char}
    (hc : pyIsDigit c = true) : (c :: cs).asString ≠ "Unknown" := by
  intro he
  have hdata : c :: cs = "Unknown".data := congrArg String.data he
  have hcu : c = 'U' := (List.cons.injEq _ _ _ _ ▸ hdata).1
  rw [hcu] at hc
  exact absurd hc (by decide)

/-- A chapter-pattern capture is never the sentinel `"Unknown"`. -/
theorem chapterMatchAt_ne_unknown {l : List Char} {s : String}
    (h : chapterMatchAt l = some s) : s ≠ "Unknown" := by
  simp only [chapterMatchAt] at h
  by_cases hp : ("Chapter".data).isPrefixOf l = true
  · rw [if_pos hp] at h
    by_cases hsp : ((l.drop 7).takeWhile pyIsSpace).isEmpty = true
    · rw [if_pos hsp] at h
      cases h
    · rw [if_neg hsp] at h
      cases hg : numGroupMatch ((l.drop 7).dropWhile pyIsSpace) with
      | none =>
        simp only [hg] at h
        cases h
      | some p =>
        obtain ⟨g, r⟩ := p
        simp only [hg, Option.some_inj] at h
        rw [← h]
        obtain ⟨c, cs, hcs, hc⟩ := numGroupMatch_digit_head hg
        rw [hcs]
        exact digit_head_ne_unknown hc
  · rw [if_neg hp] at h
    cases h

/-- Leftmost chapter-pattern search never captures the sentinel. -/
theorem chapterSearchL_ne_unknown {l : List Char} {s : String}
    (h : chapterSearchL l = some s) : s ≠ "Unknown" := by
  induction l with
  | nil => cases h
  | cons c t ih =>
    rw [chapterSearchL] at h
    cases hm : chapterMatchAt (c :: t) with
    | some g =>
      simp only [hm, Option.some_inj] at h
      subst h
      exact chapterMatchAt_ne_unknown hm
    | none =>
      simp only [hm] at h
      exact ih h

/-- A section-pattern capture is never the sentinel `"Unknown"`. -/
theorem sectionMatchAt_ne_unknown {l : List Char} {s : String}
    (h : sectionMatchAt l = some s) : s ≠ "Unknown" := by
  rw [sectionMatchAt] at h
  cases hg : numGroupMatch l with
  | none =>
    simp only [hg] at h
    cases h
  | some p =>
    obtain ⟨g, rest⟩ := p
    simp only [hg] at h
    by_cases hsp : (rest.takeWhile pyIsSpace).isEmpty = true
    · rw [if_pos hsp] at h
      cases h
    · rw [if_neg hsp] at h
      cases hdw : rest.dropWhile pyIsSpace with
      | nil =>
        simp only [hdw] at h
        cases h
      | cons c cs =>
        simp only [hdw] at h
        by_cases hu : pyIsUpperAZ c = true
        · rw [if_pos hu, Option.some_inj] at h
          subst h
          obtain ⟨d, ds, hds, hd⟩ := numGroupMatch_digit_head hg
          rw [hds]
          exact digit_head_ne_unknown hd
        · rw [if_neg hu] at h
          cases h

/-- Leftmost section-pattern search never captures the sentinel. -/
theorem sectionSearchL_ne_unknown {l : List Char} {s : String}
    (h : sectionSearchL l = some s) : s ≠ "Unknown" := by
  induction l with
  | nil => cases h
  | cons c t ih =>
    rw [sectionSearchL] at h
    cases hm : sectionMatchAt (c :: t) with
    | some g =>
      simp only [hm, Option.some_inj] at h
      subst h
      exact sectionMatchAt_ne_unknown hm
    | none =>
      simp only [hm] at h
      exact ih h

/-- A marker value is never the sentinel `"Unknown"` (its capture group
is digit-led). -/
theorem markerOf_ne_unknown {t s : String} (h : markerOf t = some s) :
    s ≠ "Unknown" := by
  rw [markerOf] at h
  cases hc : chapterSearch t with
  | some c =>
    simp only [hc, Option.some_inj] at h
    subst h
    exact chapterSearchL_ne_unknown hc
  | none =>
    simp only [hc] at h
    exact sectionSearchL_ne_unknown h

/-- No marker in a list means no last marker, and a last marker is a
marker: its value is never the sentinel. -/
theorem lastMarker_ne_unknown {l : List String} {s : String}
    (h : lastMarker l = some s) : s ≠ "Unknown" := by
  induction l with
  | nil => cases h
  | cons t rest ih =>
    rw [lastMarker] at h
    cases hm : lastMarker rest with
    | some c =>
      simp only [hm, Option.some_inj] at h
      subst h
      exact ih hm
    | none =>
      simp only [hm] at h
      exact markerOf_ne_unknown h

/-- `extract_chapter_info` is the marker with the current chapter as
fallback. -/
theorem extract_chapter_info_eq (t cur : String) :
    extract_chapter_info t cur = (markerOf t).getD cur := by
  rw [extract_chapter_info, markerOf]
  cases chapterSearch t <;> cases sectionSearch t <;> rfl

/-- The loop's `current_chapter` update equals taking the span's marker
when present, keeping the carried value otherwise. -/
theorem chapterUpdate_eq (t cur : String) :
    (if extract_chapter_info t cur ≠ "Unknown" then extract_chapter_info t cur else cur) =
      (markerOf t).getD cur := by
  rw [extract_chapter_info_eq]
  cases hm : markerOf t with
  | none => simp
  | some m =>
    simp only [Option.getD_some]
    exact if_pos (markerOf_ne_unknown hm)

/-- The chapters `extract_text_blocks_pymupdf` assigns are the running
`current_chapter` values along the page's kept spans. -/
theorem extractTextBlocksGo_chapters (page_num : Nat) (l : List RawBlock) (cur : String) :
    (extractTextBlocksGo page_num l cur).map (fun b => b.chapter) =
      carriedChapters (keptTexts l) cur := by
  induction l generalizing cur with
  | nil => rfl
  | cons rb rest ih =>
    rw [extractTextBlocksGo]
    by_cases hs : pyStrip rb.text = ""
    · rw [if_pos hs]
      have hk : keptTexts (rb :: rest) = keptTexts rest := by
        simp [keptTexts, List.filter_cons, hs]
      rw [hk]
      exact ih cur
    · rw [if_neg hs]
      have hk : keptTexts (rb :: rest) = rb.text :: keptTexts rest := by
        simp [keptTexts, List.filter_cons, hs]
      rw [hk, carriedChapters]
      simp only [List.map_cons]
      rw [chapterUpdate_eq]
      exact congrArg _ (ih _)

/-- The length of the carried-chapter trace. -/
theorem carriedChapters_length (kept : List String) (cur : String) :
    (carriedChapters kept cur).length = kept.length := by
  induction kept generalizing cur with
  | nil => rfl
  | cons t rest ih => simp [carriedChapters, ih]

/-- Pointwise, the carried chapter of the i-th span is the most recent
marker at or before it, with the incoming chapter as fallback. -/
theorem carriedChapters_get? (kept : List String) (cur : String) (i : Nat)
    (h : i < kept.length) :
    (carriedChapters kept cur).get? i =
      some ((lastMarker (kept.take (i + 1))).getD cur) := by
  induction kept generalizing cur i with
  | nil => simp at h
  | cons t rest ih =>
    cases i with
    | zero => rfl
    | succ i =>
      show (carriedChapters rest ((markerOf t).getD cur)).get? i =
        some ((lastMarker ((t :: rest).take (i + 1 + 1))).getD cur)
      rw [ih ((markerOf t).getD cur) i (by simpa using h)]
      rw [List.take_succ_cons, lastMarker]
      cases hl : lastMarker (rest.take (i + 1)) with
      | some c => simp only [hl, Option.getD_some]
      | none => simp only [hl, Option.getD_none]

/-- The first non-sentinel entry of the carried trace started at
`"Unknown"` is the page's first marker. -/
theorem carriedChapters_find? (kept : List String) :
    (carriedChapters kept "Unknown").find? (fun c => c ≠ "Unknown") = firstMarker kept := by
  induction kept with
  | nil => rfl
  | cons t rest ih =>
    show List.find? (fun c => decide (c ≠ "Unknown"))
        (((markerOf t).getD "Unknown") :: carriedChapters rest ((markerOf t).getD "Unknown")) =
      firstMarker (t :: rest)
    cases hm : markerOf t with
    | some m =>
      have hne := markerOf_ne_unknown hm
      rw [Option.getD_some, List.find?_cons_of_pos _ (by simpa using hne)]
      rw [firstMarker, List.findSome?_cons, hm]
    | none =>
      rw [Option.getD_none, List.find?_cons_of_neg _ (by simp)]
      rw [firstMarker, List.findSome?_cons, hm]
      exact ih

/-- The carried trace, back-filled at its sentinel entries with the
page's first marker, is exactly the corrected claim's chapter
assignment. -/
theorem carried_backfill_spec (kept : List String) :
    (carriedChapters kept "Unknown").map
        (fun c => if c = "Unknown" then pageChapter kept else c) =
      chapterAssignmentSpec kept := by
  apply List.ext_get?
  intro i
  by_cases hi : i < kept.length
  · rw [List.get?_map, carriedChapters_get? kept "Unknown" i hi]
    rw [chapterAssignmentSpec, List.get?_map, List.get?_range hi]
    simp only [Option.map_some']
    cases hl : lastMarker (kept.take (i + 1)) with
    | some c =>
      simp [Option.getD_some, if_neg (lastMarker_ne_unknown hl)]
    | none =>
      simp [Option.getD_none]
  · rw [List.get?_eq_none.mpr, List.get?_eq_none.mpr]
    · rw [chapterAssignmentSpec, List.length_map, List.length_range]
      omega
    · rw [List.length_map, carriedChapters_length]
      omega

/-- The chapter assignment of `processPageData`: its first
`keptTexts`-many blocks are the page's text blocks carrying the
corrected claim's chapters, and every later block (OCR diagram and table
blocks) carries the page's first marker value (or `"Unknown"`). -/
theorem processPageData_chapters (pg : PageData) (page_num : Nat) (flags : ProcFlags) :
    ((processPageData pg page_num flags).take (keptTexts pg.rawBlocks).length).map
        (fun b => b.chapter) = chapterAssignmentSpec (keptTexts pg.rawBlocks) ∧
      ∀ b ∈ (processPageData pg page_num flags).drop (keptTexts pg.rawBlocks).length,
        b.chapter = pageChapter (keptTexts pg.rawBlocks) := by
  have hmap : (extract_text_blocks_pymupdf pg.rawBlocks page_num).map (fun b => b.chapter) =
      carriedChapters (keptTexts pg.rawBlocks) "Unknown" :=
    extractTextBlocksGo_chapters page_num pg.rawBlocks "Unknown"
  have hcur : (match (extract_text_blocks_pymupdf pg.rawBlocks page_num).find?
        (fun b => b.chapter ≠ "Unknown") with
      | some b => b.chapter
      | none => "Unknown") = pageChapter (keptTexts pg.rawBlocks) := by
    have h1 := List.find?_map (fun b : ContentBlock => b.chapter)
      (extract_text_blocks_pymupdf pg.rawBlocks page_num)
      (p := fun c => c ≠ "Unknown")
    rw [hmap, carriedChapters_find?] at h1
    cases hf : (extract_text_blocks_pymupdf pg.rawBlocks page_num).find?
        (fun b => b.chapter ≠ "Unknown") with
    | none =>
      rw [show ((fun c : String => decide (c ≠ "Unknown")) ∘ fun b : ContentBlock =>
          b.chapter) = fun b : ContentBlock => decide (b.chapter ≠ "Unknown") from rfl,
        hf] at h1
      rw [pageChapter, h1]
      rfl
    | some b =>
      rw [show ((fun c : String => decide (c ≠ "Unknown")) ∘ fun b : ContentBlock =>
          b.chapter) = fun b : ContentBlock => decide (b.chapter ≠ "Unknown") from rfl,
        hf] at h1
      rw [pageChapter, h1]
      rfl
  have hblen : ((extract_text_blocks_pymupdf pg.rawBlocks page_num).map (fun b =>
      if b.chapter = "Unknown"
      then { b with chapter := pageChapter (keptTexts pg.rawBlocks) } else b)).length =
      (keptTexts pg.rawBlocks).length := by
    rw [List.length_map]
    have := congrArg List.length hmap
    rw [List.length_map, carriedChapters_length] at this
    exact this
  simp only [processPageData, hcur]
  constructor
  · rw [List.append_assoc, ← hblen, List.take_left, List.map_map]
    rw [show ((fun b : ContentBlock => b.chapter) ∘ fun b : ContentBlock =>
        if b.chapter = "Unknown"
        then { b with chapter := pageChapter (keptTexts pg.rawBlocks) } else b) =
        fun b : ContentBlock =>
          if b.chapter = "Unknown" then pageChapter (keptTexts pg.rawBlocks)
          else b.chapter by
      funext b
      by_cases hb : b.chapter = "Unknown" <;> simp [Function.comp, hb]]
    rw [show (fun b : ContentBlock =>
        if b.chapter = "Unknown" then pageChapter (keptTexts pg.rawBlocks) else b.chapter) =
        (fun c : String =>
          if c = "Unknown" then pageChapter (keptTexts pg.rawBlocks) else c) ∘
          (fun b : ContentBlock => b.chapter) from rfl]
    rw [← List.map_map, hmap, carried_backfill_spec]
  · intro b hb
    rw [List.append_assoc, ← hblen, List.drop_left] at hb
    rcases List.mem_append.mp hb with hb' | hb'
    · split at hb'
      · rcases List.mem_filterMap.mp hb' with ⟨img, _, himg⟩
        split at himg
        · cases himg
          rfl
        · cases himg
      · cases hb'
    · split at hb'
      · rcases List.mem_map.mp hb' with ⟨x, _, rfl⟩
        rfl
      · cases hb'

/-- C2 as amended: chapter context is tracked only within a single
page's pass.  For any in-range page of a run, the page's text blocks
carry exactly `chapterAssignmentSpec`: a block at or after a
chapter/section marker takes the most recent marker value, a block
before the page's first marker is back-filled with that first marker's
value, and on a marker-free page every block gets `"Unknown"` — never a
value carried from previously processed pages; the page's OCR and table
blocks all get the page's first marker value (or `"Unknown"`). -/
theorem page_chapter_assignment (pdf : List PageData) (page_num : Nat)
    (flags : ProcFlags) (pg : PageData) (h0 : page_num ≠ 0)
    (hpg : pdf.get? (page_num - 1) = some pg) :
    ((process_page pdf page_num flags).take (keptTexts pg.rawBlocks).length).map
        (fun b => b.chapter) = chapterAssignmentSpec (keptTexts pg.rawBlocks) ∧
      ∀ b ∈ (process_page pdf page_num flags).drop (keptTexts pg.rawBlocks).length,
        b.chapter = pageChapter (keptTexts pg.rawBlocks) := by
  have hidx : page_num - 1 < pdf.length := by
    have := List.get?_eq_some.mp hpg
    exact this.choose
  have hlt : ¬pdf.length < page_num := by omega
  have hpp : process_page pdf page_num flags = processPageData pg page_num flags := by
    simp only [process_page, if_neg hlt, if_neg h0, hpg]
  rw [hpp]
  exact processPageData_chapters pg page_num flags

/-- Witness for C2's amended statement: a page whose first span precedes
its `Chapter 3.1` marker, with a table block; the pre-marker span is
back-filled to `"3.1"`, later spans carry it, and the table block gets
it too. -/
theorem page_chapter_assignment_witness :
    ((process_page [backfillPage] 1 backfillFlags).take
        (keptTexts backfillPage.rawBlocks).length).map (fun b => b.chapter) =
      chapterAssignmentSpec (keptTexts backfillPage.rawBlocks) ∧
      ∀ b ∈ (process_page [backfillPage] 1 backfillFlags).drop
          (keptTexts backfillPage.rawBlocks).length,
        b.chapter = pageChapter (keptTexts backfillPage.rawBlocks) :=
  page_chapter_assignment [backfillPage] 1 backfillFlags backfillPage (by decide) rfl

/-! ### Claim C3 -/

/-- Counterexample to C3: on the FAISS backend path,
`FAISSVectorStore.search` hands back LangChain's `(document, score)`
pairs unchanged, and there the score is the raw L2 distance, listed
ascending (lower = more similar).  For a well-formed two-hit reply with
distances 1/5 and 7/10 the returned scores are strictly increasing, so
the sequence is not sorted by non-increasing score under the claim's
higher-is-more-relevant reading. -/
theorem faiss_scores_not_nonincreasing :
    (faissSearchFormat faissReply).map (fun r => r.score) = [1/5, 7/10] ∧
      ¬ List.Sorted storeScoreGE (faissSearchFormat faissReply) := by
  refine ⟨rfl, fun hs => ?_⟩
  have h := List.rel_of_sorted_cons hs _ (List.mem_singleton.mpr rfl)
  rw [storeScoreGE] at h
  norm_num [faissSearchFormat, faissReply] at h

/-- C3 as amended: `quick_search` returns at most 20 results sorted by
non-increasing score whenever the special-intent splice step is not
taken — in particular for every non-special-intent query on every store
outcome (vector, fallback, or unset index); only the spliced result of a
special-intent query can break the bound and the order, and the FAISS
store path reports raw ascending distances rather than descending
similarities. -/
theorem quick_search_le20_sorted (store : Option (Nat → Except String (List (LCDoc × ℚ))))
    (dm : DocumentMetadata) (ectx : String → List String → List String) (q : String)
    (h : is_business_rules_steps_query q = false) :
    (quick_search store dm ectx q).length ≤ 20 ∧
      List.Sorted scoreGE (quick_search store dm ectx q) := by
  cases store with
  | none =>
    exact ⟨by show (1 : Nat) ≤ 20; omega, List.sorted_singleton mockResult⟩
  | some sim =>
    have hq : quick_search (some sim) dm ectx q = quickSearchSorted sim dm ectx q := by
      simp [quick_search, h]
    rw [hq, quickSearchSorted]
    constructor
    · rw [List.length_take]
      exact min_le_left _ _
    · exact List.Pairwise.sublist (List.take_sublist _ _)
        (List.sorted_insertionSort scoreGE _)

/-- Witness for C3's amended statement at a non-special-intent query. -/
theorem quick_search_le20_sorted_witness :
    (quick_search none sampleDm (fun _ _ => []) "hello").length ≤ 20 ∧
      List.Sorted scoreGE (quick_search none sampleDm (fun _ _ => []) "hello") :=
  quick_search_le20_sorted none sampleDm (fun _ _ => []) "hello" (by decide)

/-! ### Claim C4 -/

/-- The lexicographic order implies the score order it refines. -/
theorem score_le_of_scorePageLex {a b : AppResult} (h : scorePageLex a b) :
    b.score ≤ a.score := by
  rcases h with h | ⟨h, _⟩
  · exact le_of_lt h
  · exact le_of_eq h.symm

/-- Stability of the descending-score insertion: inserting `x` into a
lexicographically sorted list whose members all have page keys at least
`x`'s keeps the list lexicographically sorted. -/
theorem sorted_lex_orderedInsert (x : AppResult) (L : List AppResult)
    (hL : List.Sorted scorePageLex L) (hx : ∀ y ∈ L, pageLE x y) :
    List.Sorted scorePageLex (L.orderedInsert scoreGE x) := by
  induction L with
  | nil => exact List.sorted_singleton x
  | cons y L' ih =>
    rw [List.orderedInsert]
    split_ifs with hxy
    · rw [List.sorted_cons]
      refine ⟨fun b hb => ?_, hL⟩
      have hscore : b.score ≤ x.score := by
        rcases List.mem_cons.mp hb with rfl | hb'
        · exact hxy
        · exact le_trans (score_le_of_scorePageLex (List.rel_of_sorted_cons hL b hb')) hxy
      rcases lt_or_eq_of_le hscore with hlt | heq
      · exact Or.inl hlt
      · exact Or.inr ⟨heq.symm, hx b hb⟩
    · rw [List.sorted_cons]
      refine ⟨fun b hb => ?_, ih hL.of_cons (fun z hz => hx z (List.mem_cons_of_mem y hz))⟩
      rcases (List.mem_orderedInsert scoreGE).mp hb with rfl | hb'
      · exact Or.inl (lt_of_not_le hxy)
      · exact List.rel_of_sorted_cons hL b hb'

/-- Python's `sort(key=score, reverse=True)` is stable, so applied to a
page-ascending list it yields a list sorted by descending score with
ascending page as tie-break. -/
theorem sorted_lex_insertionSort (l : List AppResult) (h : List.Sorted pageLE l) :
    List.Sorted scorePageLex (l.insertionSort scoreGE) := by
  induction l with
  | nil => exact List.sorted_nil
  | cons x t ih =>
    rw [List.insertionSort]
    refine sorted_lex_orderedInsert x _ (ih h.of_cons) (fun y hy => ?_)
    exact List.rel_of_sorted_cons h y ((List.mem_insertionSort scoreGE).mp hy)

/-- Claim C4: when the vector store raises (both `quick_search` store
calls fail), the search falls back to exact-substring keyword scanning
over the stored page texts: the result list is non-empty as soon as some
query keyword occurs in some stored page text, every returned result is
scored by the fraction of query keywords found in its page's text, and
the final ordering is descending score with ascending page number as the
deterministic tie-break (the stable score sort applied to the
page-sorted keyword hits). -/
theorem keyword_fallback_on_store_error
    (sim : Nat → Except String (List (LCDoc × ℚ))) (dm : DocumentMetadata)
    (ectx : String → List String → List String) (q : String) (e e' : String)
    (h20 : sim 20 = .error e) (h1 : sim 1 = .error e')
    (hkw : ∃ p ∈ dm.page_content.map Prod.fst, kwMatches dm q p ≠ []) :
    quick_search (some sim) dm ectx q ≠ [] ∧
      (∀ r ∈ quick_search (some sim) dm ectx q,
        ∃ p ∈ dm.page_content.map Prod.fst,
          dget r.metadata "page" = some (.int p) ∧
            r.score = ((kwMatches dm q p).length : ℚ) / ((queryKeywords q).length : ℚ)) ∧
      List.Pairwise scorePageLex (quick_search (some sim) dm ectx q) := by
  have hq : quick_search (some sim) dm ectx q = quickSearchSorted sim dm ectx q := by
    by_cases hbiz : is_business_rules_steps_query q = true
    · simp [quick_search, hbiz, h1]
    · simp [quick_search, hbiz]
  have hres : quickSearchResults sim dm ectx q = keyword_search dm ectx q := by
    rw [quickSearchResults, h20]
  have hraw_ne : (dm.page_content.map Prod.fst).filterMap (kwResult dm ectx q) ≠ [] := by
    obtain ⟨p, hp, hne⟩ := hkw
    have hkr : kwResult dm ectx q p =
        some { body := .context (ectx (pyLower ((List.lookup p dm.page_content).getD ""))
                  (kwMatches dm q p))
               metadata := [("page", .int p),
                 ("module", .str ((List.lookup p dm.module_info).getD "Undefined"))]
               score := ((kwMatches dm q p).length : ℚ) / ((queryKeywords q).length : ℚ) } := by
      rw [kwResult, if_neg (by simpa [List.isEmpty_iff] using hne)]
    intro hnil
    have := List.filterMap_eq_nil_iff.mp hnil p hp
    rw [hkr] at this
    cases this
  have hks_ne : keyword_search dm ectx q ≠ [] := by
    rw [keyword_search]
    intro h0
    have hperm := List.perm_insertionSort pageLE
      ((dm.page_content.map Prod.fst).filterMap (kwResult dm ectx q))
    rw [show (if false then dm.icn_pages else dm.page_content.map Prod.fst) =
      dm.page_content.map Prod.fst from rfl] at h0
    rw [h0] at hperm
    exact hraw_ne hperm.symm.eq_nil
  refine ⟨?_, ?_, ?_⟩
  · rw [hq, quickSearchSorted, hres]
    apply List.ne_nil_of_length_pos
    rw [List.length_take]
    have hlen := (List.perm_insertionSort scoreGE (keyword_search dm ectx q)).length_eq
    have hpos : 0 < (keyword_search dm ectx q).length :=
      List.length_pos.mpr hks_ne
    omega
  · intro r hr
    rw [hq, quickSearchSorted, hres] at hr
    have hr1 := List.mem_of_mem_take hr
    have hr2 := (List.mem_insertionSort scoreGE).mp hr1
    rw [keyword_search] at hr2
    have hr3 := (List.mem_insertionSort pageLE).mp hr2
    obtain ⟨p, hp, hf⟩ := List.mem_filterMap.mp hr3
    refine ⟨p, hp, ?_⟩
    rw [kwResult] at hf
    split at hf
    · cases hf
    · rw [Option.some_inj] at hf
      rw [← hf]
      exact ⟨rfl, rfl⟩
  · rw [hq, quickSearchSorted, hres]
    refine List.Pairwise.sublist (List.take_sublist _ _) ?_
    apply sorted_lex_insertionSort
    rw [keyword_search]
    exact List.sorted_insertionSort pageLE _

/-- Witness for C4: one stored page containing the query keyword, a
store whose calls raise. -/
theorem keyword_fallback_on_store_error_witness :
    quick_search (some downSim) sampleDm (fun _ _ => []) "alpha" ≠ [] ∧
      (∀ r ∈ quick_search (some downSim) sampleDm (fun _ _ => []) "alpha",
        ∃ p ∈ sampleDm.page_content.map Prod.fst,
          dget r.metadata "page" = some (.int p) ∧
            r.score = ((kwMatches sampleDm "alpha" p).length : ℚ) /
              ((queryKeywords "alpha").length : ℚ)) ∧
      List.Pairwise scorePageLex (quick_search (some downSim) sampleDm (fun _ _ => []) "alpha") :=
  keyword_fallback_on_store_error downSim sampleDm (fun _ _ => []) "alpha"
    "store unavailable" "store unavailable" rfl rfl
    ⟨1, by decide, by decide⟩

/-! ### Claim C5 -/

/-- `boostAndFilter` never changes a candidate's metadata. -/
theorem boostAndFilter_metadata {ib : Bool} {doc : LCDoc} {s : ℚ} {r : AppResult}
    (h : boostAndFilter ib doc s = some r) : r.metadata = doc.metadata := by
  rw [boostAndFilter] at h
  repeat' split at h
  all_goals
    first
      | (rw [Option.some_inj] at h; rw [← h])
      | cases h

/-- Every result of the sorted-truncated main list over the ranked store
comes from the unrelated chunk, hence carries module `"1.1"`. -/
theorem rankedSim_main_results_not252 :
    ∀ r ∈ quickSearchSorted rankedSim {} (fun _ _ => [])
        "major steps in producing business rules", module252Pred r = false := by
  intro r hr
  have hr1 := List.mem_of_mem_take hr
  have hr2 := (List.mem_insertionSort scoreGE).mp hr1
  rw [quickSearchResults] at hr2
  rw [show rankedSim 20 = .ok (List.replicate 20 (sampleDocA, (9/10 : ℚ))) from rfl] at hr2
  obtain ⟨p, hp, hf⟩ := List.mem_filterMap.mp hr2
  have hpe := List.eq_of_mem_replicate hp
  subst hpe
  have hmeta := boostAndFilter_metadata hf
  rw [module252Pred, hmeta]
  rfl

/-- Counterexample to C5: a consistent store over 21 indexed chunks in
which the known-answer chunk (module 2.5.2, page 2) ranks 21st by
similarity.  The `k = 20` over-fetch misses it, and the "targeted"
lookup is the same query at `k = 1`, which returns the top-ranked
unrelated chunk, so nothing is spliced: the final result list of the
special-intent query contains no chapter-2.5.2 result although the index
contains the known-answer chunk. -/
theorem known_answer_chunk_omitted :
    ((sampleDoc252, (1/2 : ℚ)) ∈ rankedHits) ∧
      ∀ r ∈ quick_search (some rankedSim) {} (fun _ _ => [])
          "major steps in producing business rules", module252Pred r = false := by
  constructor
  · rw [rankedHits]
    exact List.mem_append_right _ (List.mem_singleton.mpr rfl)
  · intro r hr
    have hbiz : is_business_rules_steps_query
        "major steps in producing business rules" = true := by decide
    simp only [quick_search, hbiz, if_true] at hr
    split at hr
    · exact rankedSim_main_results_not252 r hr
    · rw [show rankedSim 1 = .ok [(sampleDocA, (9/10 : ℚ))] from rfl] at hr
      simp only [show List.find? spliceTarget [(sampleDocA, (9/10 : ℚ))] = none from rfl] at hr
      exact rankedSim_main_results_not252 r hr

/-- C5 as amended: for a special-intent query, if no candidate of the
main sorted list carries module 2.5.2, one additional same-query `k = 1`
lookup is issued, and its hit is spliced to the front with score 10.0
only when that hit itself carries module 2.5.2 and page 2 — the lookup
is not filtered to the known chapter, so the known-answer chunk can
still be absent from the final list (as the counterexample shows). -/
theorem special_intent_splice_front
    (sim : Nat → Except String (List (LCDoc × ℚ))) (dm : DocumentMetadata)
    (ectx : String → List String → List String) (q : String)
    (docs : List (LCDoc × ℚ)) (d : LCDoc) (s : ℚ)
    (hbiz : is_business_rules_steps_query q = true)
    (hno : (quickSearchSorted sim dm ectx q).any module252Pred = false)
    (h1 : sim 1 = .ok docs)
    (hfind : docs.find? spliceTarget = some (d, s)) :
    quick_search (some sim) dm ectx q =
      spliceResult d :: quickSearchSorted sim dm ectx q := by
  simp only [quick_search, hbiz, if_true, hno, h1, hfind, Bool.false_eq_true, if_false]

/-- Witness for C5's amended statement: the `k = 20` call raises (so the
main list is empty) while the `k = 1` call returns the known-answer
chunk, which is spliced to the front. -/
theorem special_intent_splice_front_witness :
    quick_search (some flakySim) {} (fun _ _ => [])
        "major steps in producing business rules" =
      spliceResult sampleDoc252 ::
        quickSearchSorted flakySim {} (fun _ _ => [])
          "major steps in producing business rules" :=
  special_intent_splice_front flakySim {} (fun _ _ => [])
    "major steps in producing business rules" [(sampleDoc252, 1/2)] sampleDoc252 (1/2)
    (by decide) (by decide) rfl rfl

/-! ### Claim C9 -/

/-- C9 is a code bug.  `ChromaVectorStore.add_documents` validates
nothing: called on an empty collection with 150 texts but only 120
metadata dicts at the configured `BATCH_SIZE = 100`, the first batch
(100 aligned records) is committed to the backend before the second,
mismatched batch is rejected — the call raises, yet 100 documents remain
stored, so the collection is not unchanged and the write is partial. -/
theorem add_documents_partial_write_on_mismatch :
    (add_documents constEmbed 100 {} (List.replicate 150 "t")
        (List.replicate 120 samplePageMeta) none).2.isSome = true ∧
      collectionCount (add_documents constEmbed 100 {} (List.replicate 150 "t")
        (List.replicate 120 samplePageMeta) none).1 = 100 ∧
      collectionCount ({} : ChromaCollection) = 0 := by
  set_option maxRecDepth 10000 in decide

end S1000D
